import Mathlib

/-!
# OWASP Dependency Scanner — verification of spec claims

Shallow embedding of the parts of the owasp-scanner repository that the
frozen claims talk about: the scan status lifecycle, the frontend polling
effects (`ResultsPage`, `ScanLog`, `DashboardPage`), the scan-results
filter (`ScanResults`), client-side upload validation (`FileUpload`),
the axios 401 interceptor (`services/api.js`), the Windows setup script
(`setup-windows.ps1`) and the MSI build script (`build-msi.ps1`).

The backend Python application (`backend/app`) is not part of the source
tree; the definitions that depend on it are modelled from the spec and
marked as such in their doc comments.
-/

namespace OwaspScanner

/-- The status enum of a `Scan` row, as rendered by the frontend
(`STATUS_MAP` in `ResultsPage` and `STATUS_ICON` in `DashboardPage` list
exactly these four states). -/
inductive ScanStatus where
  | pending
  | running
  | completed
  | failed
deriving DecidableEq, Repr, Fintype

/-- Modelled from the spec: the backend scan lifecycle
(`backend/app/scanner` is not under the source tree).  Per the spec,
"a Scan's status moves pending → running → {completed, failed},
monotonically, never backward".  `statusStep s t` says a single backend
operation may move a scan from status `s` to status `t`. -/
def statusStep : ScanStatus → ScanStatus → Bool
  | .pending, .running => true
  | .running, .completed => true
  | .running, .failed => true
  | _, _ => false

/-- Position of each status along the lifecycle: `completed` and `failed`
are the two terminal outcomes at the same depth. -/
def statusRank : ScanStatus → Nat
  | .pending => 0
  | .running => 1
  | .completed => 2
  | .failed => 2

/-- `StatusReach s t`: status `t` is reachable from status `s` by some
(possibly empty) sequence of backend lifecycle operations. -/
def StatusReach (s t : ScanStatus) : Prop :=
  Relation.ReflTransGen (fun a b => statusStep a b = true) s t

/-- A scan row, with the fields the frontend reads
(`scan.id`, `scan.original_filename`, `scan.status`, `scan.error_message`,
`scan.total_vulnerabilities`). -/
structure Scan where
  id : Nat
  original_filename : String
  status : ScanStatus
  error_message : Option String
  total_vulnerabilities : Nat
deriving DecidableEq, Repr

/-- Modelled from the spec: a freshly uploaded scan row starts `pending`
with no error message (backend upload endpoint is not under the source
tree). -/
def newScan (id : Nat) (filename : String) : Scan :=
  { id := id
    original_filename := filename
    status := .pending
    error_message := none
    total_vulnerabilities := 0 }

/-- Modelled from the spec: the backend marks the row `running` when the
scan subprocess starts. -/
def startScan (s : Scan) : Scan :=
  { s with status := .running }

/-- Modelled from the spec: a successful scan ends `completed` with the
vulnerability count and no error message. -/
def completeScan (s : Scan) (total : Nat) : Scan :=
  { s with
    status := .completed
    error_message := none
    total_vulnerabilities := total }

/-- Modelled from the spec: "a single `error_message` string persisted on
failed scan rows" — a failed scan ends `failed` carrying exactly one
error message. -/
def failScan (s : Scan) (msg : String) : Scan :=
  { s with status := .failed, error_message := some msg }

/-- Invariant stated by the spec: only `failed` rows carry an
`error_message`. -/
def ErrorMsgInv (s : Scan) : Prop :=
  s.status ≠ .failed → s.error_message = none

/-- The failure banner of `ResultsPage`: rendered only when
`scan.status === 'failed'`, showing
`scan.error_message || 'An unknown error occurred'`.  JavaScript `||`
falls back to the default whenever `error_message` is falsy — both when
it is null (`none`) and when it is the empty string. -/
def failedBanner (s : Scan) : Option String :=
  if s.status = .failed then
    some (match s.error_message with
      | none => "An unknown error occurred"
      | some msg => if msg = "" then "An unknown error occurred" else msg)
  else
    none

/-- A vulnerability row, with the fields the frontend reads
(`ScanResults` reads `id`, `severity`, `is_suppressed`,
`ai_is_false_positive`; `null`/`undefined` for a never-analyzed row is
`none`). -/
structure Vulnerability where
  id : Nat
  cve_id : String
  severity : String
  description : String
  is_suppressed : Bool
  ai_is_false_positive : Option Bool
deriving DecidableEq, Repr

/-- Modelled from the spec: "suppressing a vulnerability toggles a
boolean" — the backend `PATCH .../suppress` endpoint
(`backend/app/scanner/router.py` is not under the source tree) flips
`is_suppressed` and changes nothing else. -/
def suppressVuln (v : Vulnerability) : Vulnerability :=
  { v with is_suppressed := !v.is_suppressed }

/-- The filter controls of `ScanResults`: the suppressed checkbox, the
severity dropdown (`'ALL'` or a severity string) and the
false-positive dropdown (`'ALL'` / `'FP'` / `'REAL'`). -/
structure FilterSettings where
  showSuppressed : Bool
  filterSeverity : String
  filterFP : String
deriving DecidableEq, Repr

/-- JavaScript truthiness of the tri-state `ai_is_false_positive` value:
`null`/`undefined` (`none`) and `false` are falsy. -/
def truthyFP : Option Bool → Bool
  | some b => b
  | none => false

/-- The filter predicate of `ScanResults` (`vulns.filter((v) => ...)`):

    if (!showSuppressed && v.is_suppressed) return false
    if (filterSeverity !== 'ALL' && v.severity !== filterSeverity) return false
    if (filterFP === 'FP' && !v.ai_is_false_positive) return false
    if (filterFP === 'REAL' && v.ai_is_false_positive !== false) return false
    return true
-/
def passesFilter (st : FilterSettings) (v : Vulnerability) : Bool :=
  if !st.showSuppressed && v.is_suppressed then false
  else if st.filterSeverity ≠ "ALL" && v.severity ≠ st.filterSeverity then false
  else if st.filterFP = "FP" && !truthyFP v.ai_is_false_positive then false
  else if st.filterFP = "REAL" && !(v.ai_is_false_positive = some false) then false
  else true

/-- The `SUPPORTED` extension list of `FileUpload`. -/
def SUPPORTED : List String :=
  [".jar", ".war", ".ear", ".zip", ".sar", ".apk", ".nupkg", ".egg",
   ".wheel", ".tar", ".gz", ".tgz"]

/-- JavaScript `name.split('.')` on the character level: splits at every
`'.'`, keeping empty parts, and yields `[name]` when there is no dot. -/
def splitOnDot : List Char → List (List Char)
  | [] => [[]]
  | c :: cs =>
    match splitOnDot cs with
    | [] => [[]]
    | p :: ps => if c = '.' then [] :: p :: ps else (c :: p) :: ps

/-- The extension computed by `validateAndSet`:
`'.' + f.name.split('.').pop().toLowerCase()`. -/
def extOf (name : String) : String :=
  String.mk ('.' :: ((splitOnDot name.toList).getLastD []).map Char.toLower)

/-- The `FileUpload` component state that `validateAndSet` touches:
the selected `file` and the `error` message. -/
structure UploadState where
  file : Option String
  error : String
deriving DecidableEq, Repr

/-- `validateAndSet` from `FileUpload`: refuse a file whose extension is
not in `SUPPORTED`, reporting the unsupported-type error and leaving the
selected file unchanged; otherwise clear the error and select the file. -/
def validateAndSet (st : UploadState) (name : String) : UploadState :=
  if !SUPPORTED.contains (extOf name) then
    { st with
      error := "Unsupported file type. Supported: "
        ++ String.intercalate ", " SUPPORTED }
  else
    { file := some name, error := "" }

/-- Modelled from the spec: "upload of unsupported extension returns 4xx"
and "4xx for client errors such as bad auth or invalid upload type" —
the HTTP status the upload endpoint (`backend/app/scanner/router.py`,
not under the source tree) answers for a given filename. -/
def uploadStatus (name : String) : Nat :=
  if SUPPORTED.contains (extOf name) then 200 else 400

/-- The `ResultsPage` polling effect:

    if (!scan || scan.status === 'completed' || scan.status === 'failed') return
    const interval = setInterval(fetchScan, 4000)

`none` means no interval is installed. -/
def resultsPagePollMillis (scan : Option Scan) : Option Nat :=
  match scan with
  | none => none
  | some s =>
    if s.status = .completed || s.status = .failed then none else some 4000

/-- `isActive` from `ScanLog`:
`scanStatus === 'pending' || scanStatus === 'running'`. -/
def scanLogIsActive (scanStatus : ScanStatus) : Bool :=
  scanStatus = .pending || scanStatus = .running

/-- The `ScanLog` polling effect: `if (!isActive) return` then
`setInterval(fetchLog, 2000)`. -/
def scanLogPollMillis (scanStatus : ScanStatus) : Option Nat :=
  if scanLogIsActive scanStatus then some 2000 else none

/-- The fixed period of the `DashboardPage` interval
(`setInterval(..., 5000)` — the interval itself is unconditional). -/
def dashboardPollMillis : Nat := 5000

/-- The guard inside the `DashboardPage` interval callback:
`scans.some((s) => s.status === 'pending' || s.status === 'running')`;
a tick re-fetches only when this holds of the scan list the callback
closed over. -/
def dashboardTickFetches (scans : List ScanStatus) : Bool :=
  scans.any (fun s => s = .pending || s = .running)

/-- The `DashboardPage` polling machinery.  The `useEffect` that installs
the interval has dependency array `[scans.length]`, so the interval
callback closes over the `scans` value from the render in which the
effect last ran (`snapshot`); `current` is the latest `scans` state. -/
structure DashboardState where
  snapshot : List ScanStatus
  current : List ScanStatus
deriving DecidableEq, Repr

/-- The unconditional `fetchScans()` call on mount (and any fetch whose
result changes `scans`): `setScans(data)` updates `current`, and the
effect re-runs — re-capturing the snapshot — exactly when
`scans.length` changed. -/
def dashboardInitialFetch (st : DashboardState) (server : List ScanStatus) :
    DashboardState :=
  if server.length ≠ st.current.length then ⟨server, server⟩
  else ⟨st.snapshot, server⟩

/-- One 5-second tick of the `DashboardPage` interval: the callback
consults its closed-over `snapshot`; if it sees an active scan it
re-fetches (updating `current` from the server), and the effect
re-captures the snapshot only if the length changed. -/
def dashboardRefresh (st : DashboardState) (server : List ScanStatus) :
    DashboardState :=
  if dashboardTickFetches st.snapshot then dashboardInitialFetch st server
  else st

/-- Modelled from the spec: the body of
`POST /api/integrations/webhook/{token}` — "accepting
`{source, project_name, artifact_url, metadata}`", where `source` and
`project_name` are required and `artifact_url` and `metadata` are
optional (the receiver, `backend/app/integrations`, is not under the
source tree).  `metadata` is an arbitrary JSON object, modelled as a
key-value list. -/
structure WebhookBody where
  source : Option String
  project_name : Option String
  artifact_url : Option String
  metadata : Option (List (String × String))
deriving DecidableEq, Repr

/-- Modelled from the spec: the webhook receiver accepts any body with
the two required fields present. -/
def webhookAccepts (b : WebhookBody) : Bool :=
  b.source.isSome && b.project_name.isSome

/-- Client-side state touched by the axios response interceptor in
`services/api.js`: the `'user'` entry of `localStorage` and
`window.location.href`. -/
structure ClientState where
  storedUser : Option String
  href : String
deriving DecidableEq, Repr

/-- The global axios response interceptor of `services/api.js` (shared by
every `authAPI` / `scansAPI` / `integrationsAPI` call):

    if (err.response?.status === 401) {
      localStorage.removeItem('user')
      window.location.href = '/login'
    }

`status` is `none` when the error carries no response. -/
def interceptResponse (st : ClientState) (status : Option Nat) : ClientState :=
  if status = some 401 then { storedUser := none, href := "/login" } else st

/-- Outcome of one script step: how many times the underlying command was
attempted, and either success or termination with an exit code. -/
inductive StepResult where
  | success (attempts : Nat)
  | failure (attempts : Nat) (exitCode : Nat)
deriving DecidableEq, Repr

/-- Number of attempts a step made. -/
def StepResult.attempts : StepResult → Nat
  | .success n => n
  | .failure n _ => n

/-- Step 4 of `setup-windows.ps1` (dependency installation):

    & $venvPip install -r ... --quiet
    if ($LASTEXITCODE -ne 0) {
        Write-Info "Retrying with prebuilt wheels only..."
        & $venvPip install -r ... --only-binary ":all:" --quiet
        if ($LASTEXITCODE -ne 0) { Write-Err "pip install failed."; exit 1 }
    }

`firstOk` / `retryOk` are the exit statuses of the two pip invocations. -/
def setupPipInstallStep (firstOk retryOk : Bool) : StepResult :=
  if firstOk then .success 1
  else if retryOk then .success 2
  else .failure 2 1

/-- Success/failure of each external action `build-msi.ps1` performs, in
script order.  `...Cached` fields say whether the corresponding archive
is already present in `installer/_cache` (the `Download` helper skips
the request when the destination exists). -/
structure BuildEnv where
  wixOnPath : Bool
  wixZipCached : Bool
  wixDownloadOk : Bool
  wixExtractOk : Bool
  toolsOnPath : Bool
  venvOk : Bool
  pipUpgradeOk : Bool
  pipPyInstallerOk : Bool
  pipRequirementsOk : Bool
  npmInstallOk : Bool
  npmBuildOk : Bool
  frontendDistExists : Bool
  pyInstallerOk : Bool
  pyDistExists : Bool
  jreZipCached : Bool
  jreDownloadOk : Bool
  jreExtractOk : Bool
  dcZipCached : Bool
  dcDownloadOk : Bool
  dcExtractOk : Bool
  heatAppOk : Bool
  heatJreOk : Bool
  heatDcOk : Bool
  candleOk : Bool
  lightOk : Bool
deriving DecidableEq, Repr

/-- The `Download` helper of `build-msi.ps1`: an archive is available
when it is already cached; otherwise it must be downloaded, which the
`-SkipDownloads` flag suppresses (leaving the later `Expand-Archive`
to fail on the missing file). -/
def fetchOk (skipDownloads cached downloadOk : Bool) : Bool :=
  if cached then true
  else if skipDownloads then false
  else downloadOk

/-- `build-msi.ps1` (the installer build script): sequential steps, each
failure reaching `Fail` / a terminating error and ending the script with
exit code 1; a run that passes every step links
`owasp-scanner-$Version.msi`.

Steps in script order: locate-or-bootstrap WiX, check python/node/npm,
build venv, pip upgrade, pip install pyinstaller, pip install
requirements, frontend build (guarded by `-SkipFrontendBuild`),
PyInstaller (guarded by `-SkipPyInstaller`), stage JRE, stage OWASP DC,
three `heat.exe` harvests, `candle.exe`, `light.exe`. -/
def buildMsi (skipFrontendBuild skipPyInstaller skipDownloads : Bool)
    (version : String) (env : BuildEnv) : Except Nat String :=
  if !(env.wixOnPath
      || (fetchOk skipDownloads env.wixZipCached env.wixDownloadOk
          && env.wixExtractOk)) then .error 1
  else if !env.toolsOnPath then .error 1
  else if !env.venvOk then .error 1
  else if !env.pipUpgradeOk then .error 1
  else if !env.pipPyInstallerOk then .error 1
  else if !env.pipRequirementsOk then .error 1
  else if !(if skipFrontendBuild then env.frontendDistExists
            else env.npmInstallOk && env.npmBuildOk) then .error 1
  else if !(if skipPyInstaller then env.pyDistExists
            else env.pyInstallerOk) then .error 1
  else if !(fetchOk skipDownloads env.jreZipCached env.jreDownloadOk
            && env.jreExtractOk) then .error 1
  else if !(fetchOk skipDownloads env.dcZipCached env.dcDownloadOk
            && env.dcExtractOk) then .error 1
  else if !(env.heatAppOk && env.heatJreOk && env.heatDcOk) then .error 1
  else if !env.candleOk then .error 1
  else if !env.lightOk then .error 1
  else .ok ("owasp-scanner-" ++ version ++ ".msi")

/-- A build environment in which every external action succeeds and all
archives are cached. -/
def allOkEnv : BuildEnv :=
  { wixOnPath := true, wixZipCached := true, wixDownloadOk := true,
    wixExtractOk := true, toolsOnPath := true, venvOk := true,
    pipUpgradeOk := true, pipPyInstallerOk := true,
    pipRequirementsOk := true, npmInstallOk := true, npmBuildOk := true,
    frontendDistExists := true, pyInstallerOk := true,
    pyDistExists := true, jreZipCached := true, jreDownloadOk := true,
    jreExtractOk := true, dcZipCached := true, dcDownloadOk := true,
    dcExtractOk := true, heatAppOk := true, heatJreOk := true,
    heatDcOk := true, candleOk := true, lightOk := true }

/-! ## Theorems -/

/-- Any single lifecycle operation strictly advances the status rank. -/
theorem statusStep_rank_lt (s t : ScanStatus) (h : statusStep s t = true) :
    statusRank s < statusRank t := by
  revert h
  cases s <;> cases t <;> decide

/-- No lifecycle operation leaves `completed`. -/
theorem statusStep_completed (t : ScanStatus) :
    statusStep .completed t = false := by
  cases t <;> rfl

/-- No lifecycle operation leaves `failed`. -/
theorem statusStep_failed (t : ScanStatus) :
    statusStep .failed t = false := by
  cases t <;> rfl

/-- C1: a scan's status only ever moves forward along
pending → running → {completed, failed}: along any sequence of lifecycle
operations the rank never decreases (so no status ever moves backward),
and a scan that is `completed` or `failed` stays in that status
forever. -/
theorem scan_status_monotone (s t : ScanStatus) (h : StatusReach s t) :
    statusRank s ≤ statusRank t ∧
    (s = .completed → t = .completed) ∧
    (s = .failed → t = .failed) := by
  induction h with
  | refl => exact ⟨Nat.le_refl _, fun h => h, fun h => h⟩
  | tail _ hbc ih =>
    obtain ⟨hrank, hcomp, hfail⟩ := ih
    refine ⟨Nat.le_trans hrank (Nat.le_of_lt (statusStep_rank_lt _ _ hbc)),
      fun hs => ?_, fun hs => ?_⟩
    · rw [hcomp hs] at hbc
      rw [statusStep_completed] at hbc
      cases hbc
    · rw [hfail hs] at hbc
      rw [statusStep_failed] at hbc
      cases hbc

/-- Witness for C1: the full lifecycle pending → running → completed is a
concrete reachability chain, and the theorem applies to it. -/
theorem scan_status_monotone_witness :
    StatusReach .pending .completed ∧
    (statusRank .pending ≤ statusRank .completed ∧
     (ScanStatus.pending = .completed → ScanStatus.completed = .completed) ∧
     (ScanStatus.pending = .failed → ScanStatus.completed = .failed)) := by
  have h1 : statusStep .pending .running = true := by decide
  have h2 : statusStep .running .completed = true := by decide
  have hchain : StatusReach .pending .completed :=
    Relation.ReflTransGen.head h1 (Relation.ReflTransGen.single h2)
  exact ⟨hchain, scan_status_monotone _ _ hchain⟩

/-- C4: the suppress operation toggles `is_suppressed`, applying it twice
restores the original vulnerability exactly, and every other field is
unchanged by one application. -/
theorem suppress_toggles (v : Vulnerability) :
    (suppressVuln v).is_suppressed = !v.is_suppressed ∧
    suppressVuln (suppressVuln v) = v ∧
    (suppressVuln v).id = v.id ∧
    (suppressVuln v).cve_id = v.cve_id ∧
    (suppressVuln v).severity = v.severity ∧
    (suppressVuln v).description = v.description ∧
    (suppressVuln v).ai_is_false_positive = v.ai_is_false_positive := by
  refine ⟨rfl, ?_, rfl, rfl, rfl, rfl, rfl⟩
  cases v
  simp [suppressVuln]

/-- C6: any webhook body with `source` and `project_name` present is
accepted by the receiver, whatever the optional `artifact_url` and
`metadata` hold; dropping either required field is rejected. -/
theorem webhook_schema (source project_name : String)
    (artifact_url : Option String)
    (metadata : Option (List (String × String))) :
    webhookAccepts ⟨some source, some project_name, artifact_url, metadata⟩
      = true ∧
    webhookAccepts ⟨none, some project_name, artifact_url, metadata⟩
      = false ∧
    webhookAccepts ⟨some source, none, artifact_url, metadata⟩
      = false :=
  ⟨rfl, rfl, rfl⟩

/-- C10: on any response with HTTP status 401 the shared axios
interceptor removes the stored user from localStorage and redirects the
browser to /login, whatever the previous client state was. -/
theorem unauthorized_logout (st : ClientState) :
    (interceptResponse st (some 401)).storedUser = none ∧
    (interceptResponse st (some 401)).href = "/login" := by
  constructor <;> simp [interceptResponse]

/-- C2 counterexample: the claim "no code path automatically re-attempts
a failed operation" is false — in `setup-windows.ps1` step 4, when the
first `pip install -r requirements.txt` fails, the script automatically
runs pip a second time (with `--only-binary`), so the dependency
installation step makes two attempts, not at most one. -/
theorem no_retry_counterexample :
    ¬ (∀ firstOk retryOk : Bool,
        (setupPipInstallStep firstOk retryOk).attempts ≤ 1) := by
  intro h
  have := h false true
  simp [setupPipInstallStep, StepResult.attempts] at this

/-- C2 (amended): the dependency-installation step of the install script
automatically re-attempts a failed pip install exactly once (with
prebuilt wheels only): a successful first attempt makes one attempt, a
failed first attempt always triggers a second, and only when both fail
does the script stop, with exit code 1. -/
theorem setup_pip_retry (retryOk : Bool) :
    setupPipInstallStep true retryOk = .success 1 ∧
    (setupPipInstallStep false retryOk).attempts = 2 ∧
    setupPipInstallStep false true = .success 2 ∧
    setupPipInstallStep false false = .failure 2 1 := by
  cases retryOk <;> exact ⟨rfl, rfl, rfl, rfl⟩

/-- C3: an upload whose filename's computed extension is not in the
supported list is rejected as a client error: the endpoint answers a
4xx status, and on the client `validateAndSet` leaves the selected file
unchanged and reports the unsupported-type error message instead of
accepting the file. -/
theorem unsupported_upload_rejected (st : UploadState) (name : String)
    (h : SUPPORTED.contains (extOf name) = false) :
    (400 ≤ uploadStatus name ∧ uploadStatus name < 500) ∧
    (validateAndSet st name).file = st.file ∧
    (validateAndSet st name).error =
      "Unsupported file type. Supported: "
        ++ String.intercalate ", " SUPPORTED := by
  have h' : extOf name ∉ SUPPORTED := by simpa using h
  have hu : uploadStatus name = 400 := by simp [uploadStatus, h']
  refine ⟨⟨by omega, by omega⟩, ?_, ?_⟩ <;> simp [validateAndSet, h']

/-- Witness for C3: the filename `report.pdf` has the unsupported
extension `.pdf` and is rejected on both sides. -/
theorem unsupported_upload_rejected_witness :
    SUPPORTED.contains (extOf "report.pdf") = false ∧
    ((400 ≤ uploadStatus "report.pdf" ∧ uploadStatus "report.pdf" < 500) ∧
     (validateAndSet ⟨none, ""⟩ "report.pdf").file =
       (⟨none, ""⟩ : UploadState).file ∧
     (validateAndSet ⟨none, ""⟩ "report.pdf").error =
       "Unsupported file type. Supported: "
         ++ String.intercalate ", " SUPPORTED) :=
  ⟨by decide, unsupported_upload_rejected ⟨none, ""⟩ "report.pdf" (by decide)⟩

/-- C5 counterexample: the dashboard does not stop re-fetching as soon as
a scan's status becomes terminal.  Concrete run: the dashboard mounts
with no scans, the mount fetch returns one running scan (the effect
captures that snapshot), a 5-second tick then fetches the scan as
completed — the scan count is unchanged, so the effect never re-runs,
the interval callback still sees the old running snapshot, and the next
tick re-fetches even though the only scan is completed. -/
theorem dashboard_poll_counterexample :
    (dashboardRefresh (dashboardInitialFetch ⟨[], []⟩ [ScanStatus.running])
        [ScanStatus.completed]).current = [ScanStatus.completed] ∧
    dashboardTickFetches
      (dashboardRefresh (dashboardInitialFetch ⟨[], []⟩ [ScanStatus.running])
        [ScanStatus.completed]).snapshot = true := by
  constructor <;> rfl

/-- C5 (amended): while a scan is pending or running the results page
polls every 4000 ms and the console log every 2000 ms, and both stop as
soon as the status becomes completed or failed; the dashboard ticks
every 5000 ms, but a tick re-fetches exactly when the scan list
snapshot captured at the last run of its effect (refreshed only when
the number of scans changes) contains a pending or running scan — not
when the current statuses do. -/
theorem polling_intervals (s : Scan) (st : DashboardState)
    (server : List ScanStatus) :
    (s.status = .pending ∨ s.status = .running →
      resultsPagePollMillis (some s) = some 4000 ∧
      scanLogPollMillis s.status = some 2000) ∧
    (s.status = .completed ∨ s.status = .failed →
      resultsPagePollMillis (some s) = none ∧
      scanLogPollMillis s.status = none) ∧
    resultsPagePollMillis none = none ∧
    dashboardPollMillis = 5000 ∧
    (dashboardTickFetches st.snapshot = true ↔
      ∃ x ∈ st.snapshot, x = .pending ∨ x = .running) ∧
    (server.length = st.current.length →
      (dashboardRefresh st server).snapshot = st.snapshot) := by
  refine ⟨?_, ?_, rfl, rfl, ?_, ?_⟩
  · rintro (h | h) <;>
      simp [resultsPagePollMillis, scanLogPollMillis, scanLogIsActive, h]
  · rintro (h | h) <;>
      simp [resultsPagePollMillis, scanLogPollMillis, scanLogIsActive, h]
  · simp [dashboardTickFetches, List.any_eq_true]
  · intro hlen
    simp only [dashboardRefresh, dashboardInitialFetch, hlen, ne_eq,
      not_true_eq_false, if_false]
    split <;> rfl

/-- Witness for C5 (amended): a freshly uploaded (pending) scan is polled
at 4000 ms on the results page and 2000 ms in the console log. -/
theorem polling_intervals_witness :
    resultsPagePollMillis (some (newScan 1 "app.jar")) = some 4000 ∧
    scanLogPollMillis (newScan 1 "app.jar").status = some 2000 :=
  (polling_intervals (newScan 1 "app.jar") ⟨[], []⟩ []).1 (Or.inl rfl)

/-- C7 counterexample: the UI does not substitute the default failure
text only when `error_message` is absent — a scan that fails with the
persisted (present) message `""` is rendered with the default text, not
with its persisted message, because JavaScript `||` treats the empty
string as falsy. -/
theorem failed_error_message_counterexample :
    (failScan (newScan 1 "app.jar") "").error_message = some "" ∧
    failedBanner (failScan (newScan 1 "app.jar") "") =
      some "An unknown error occurred" :=
  ⟨rfl, rfl⟩

/-- C7 (amended): a scan that ends failed carries exactly the one error
message it failed with, and when that message is non-empty it is what
the results page shows; the lifecycle operations keep every non-failed
scan free of an error message, the UI shows no failure reason for
non-failed scans, and it substitutes the default text exactly when a
failed row's message is absent or empty. -/
theorem failed_error_message (s : Scan) (msg : String) (total : Nat)
    (hinv : ErrorMsgInv s) (hmsg : msg ≠ "") :
    (failScan s msg).error_message = some msg ∧
    failedBanner (failScan s msg) = some msg ∧
    ErrorMsgInv (newScan s.id s.original_filename) ∧
    ErrorMsgInv (completeScan s total) ∧
    ErrorMsgInv (failScan s msg) ∧
    (s.status = .pending → ErrorMsgInv (startScan s)) ∧
    (s.status ≠ .failed → s.error_message = none ∧ failedBanner s = none) ∧
    (s.status = .failed →
      (s.error_message = none ∨ s.error_message = some "") →
      failedBanner s = some "An unknown error occurred") := by
  refine ⟨rfl, by simp [failScan, failedBanner, hmsg], fun _ => rfl,
    fun _ => rfl, fun hne => absurd rfl hne, ?_, ?_, ?_⟩
  · intro hp _
    exact hinv (by rw [hp]; intro hc; cases hc)
  · intro hne
    refine ⟨hinv hne, ?_⟩
    simp [failedBanner, hne]
  · intro hf hfalsy
    rcases hfalsy with hm | hm <;> simp [failedBanner, hf, hm]

/-- Witness for C7: failing a fresh scan with the non-empty message
`boom` persists and displays exactly that message. -/
theorem failed_error_message_witness :
    ErrorMsgInv (newScan 1 "app.jar") ∧
    ("boom" : String) ≠ "" ∧
    ((failScan (newScan 1 "app.jar") "boom").error_message = some "boom" ∧
     failedBanner (failScan (newScan 1 "app.jar") "boom") = some "boom" ∧
     ErrorMsgInv (newScan (newScan 1 "app.jar").id
       (newScan 1 "app.jar").original_filename) ∧
     ErrorMsgInv (completeScan (newScan 1 "app.jar") 0) ∧
     ErrorMsgInv (failScan (newScan 1 "app.jar") "boom") ∧
     ((newScan 1 "app.jar").status = .pending →
       ErrorMsgInv (startScan (newScan 1 "app.jar"))) ∧
     ((newScan 1 "app.jar").status ≠ .failed →
       (newScan 1 "app.jar").error_message = none ∧
       failedBanner (newScan 1 "app.jar") = none) ∧
     ((newScan 1 "app.jar").status = .failed →
       ((newScan 1 "app.jar").error_message = none ∨
        (newScan 1 "app.jar").error_message = some "") →
       failedBanner (newScan 1 "app.jar") =
         some "An unknown error occurred")) :=
  ⟨fun _ => rfl, by decide, failed_error_message (newScan 1 "app.jar")
    "boom" 0 (fun _ => rfl) (by decide)⟩

/-- Sequencing shape of the build script: prepending one more
fail-with-exit-1 guard to a tail that either exits 1 or succeeds yields
a script that either exits 1 or succeeds with the same artifact. -/
theorem errChain (c : Bool) (rest : Except Nat String) (t : String)
    (hrest : rest = .error 1 ∨ rest = .ok t) :
    (if c = true then Except.error 1 else rest) = .error 1 ∨
    (if c = true then Except.error 1 else rest) = .ok t := by
  cases c
  · simpa using hrest
  · left
    rfl

/-- Every run of the build script either stops with exit code 1 or
produces `owasp-scanner-<Version>.msi`. -/
theorem buildMsi_cases (sf sp sd : Bool) (v : String) (env : BuildEnv) :
    buildMsi sf sp sd v env = .error 1 ∨
    buildMsi sf sp sd v env = .ok ("owasp-scanner-" ++ v ++ ".msi") := by
  unfold buildMsi
  exact errChain _ _ _ (errChain _ _ _ (errChain _ _ _ (errChain _ _ _
    (errChain _ _ _ (errChain _ _ _ (errChain _ _ _ (errChain _ _ _
    (errChain _ _ _ (errChain _ _ _ (errChain _ _ _ (errChain _ _ _
    (errChain _ _ _ (Or.inr rfl)))))))))))))

set_option maxHeartbeats 1000000 in
/-- C8: the MSI build script takes the three skip flags; every successful
run yields exactly the artifact `owasp-scanner-<Version>.msi`; and when
`-SkipFrontendBuild` is passed without a prebuilt `frontend/dist`, or
`-SkipPyInstaller` without the PyInstaller dist directory, the script
ends with exit code 1 and no MSI. -/
theorem buildMsi_flags (sf sp sd : Bool) (v : String) (env : BuildEnv) :
    (∀ name, buildMsi sf sp sd v env = .ok name →
      name = "owasp-scanner-" ++ v ++ ".msi") ∧
    (sf = true → env.frontendDistExists = false →
      buildMsi sf sp sd v env = .error 1) ∧
    (sp = true → env.pyDistExists = false →
      buildMsi sf sp sd v env = .error 1) := by
  refine ⟨?_, ?_, ?_⟩
  · intro name h
    rcases buildMsi_cases sf sp sd v env with hc | hc
    · rw [hc] at h
      exact Except.noConfusion h
    · rw [hc] at h
      exact (Except.ok.inj h).symm
  · intro hsf hfd
    subst hsf
    unfold buildMsi
    simp [hfd, ite_self]
  · intro hsp hpd
    subst hsp
    unfold buildMsi
    simp [hpd, ite_self]

/-- Witness for C8: with every external action succeeding but
`frontend/dist` absent, `-SkipFrontendBuild` makes the build end with
exit code 1. -/
theorem buildMsi_flags_witness :
    (true = true) ∧
    ({ allOkEnv with frontendDistExists := false }).frontendDistExists
      = false ∧
    buildMsi true false false "1.0.0"
      { allOkEnv with frontendDistExists := false } = .error 1 :=
  ⟨rfl, rfl,
    (buildMsi_flags true false false "1.0.0"
      { allOkEnv with frontendDistExists := false }).2.1 rfl rfl⟩

/-- C9: the false-positive filter does not partition the visible
vulnerabilities: a vulnerability never analyzed
(`ai_is_false_positive` null) is excluded by both the
`False Positives Only` and the `Confirmed Risks Only` filters whatever
the other controls say, yet is shown under the `ALL` filter whenever
it is not hidden by suppression or the severity filter. -/
theorem fp_filter_not_partition (st : FilterSettings) (v : Vulnerability)
    (hai : v.ai_is_false_positive = none) :
    passesFilter { st with filterFP := "FP" } v = false ∧
    passesFilter { st with filterFP := "REAL" } v = false ∧
    (v.is_suppressed = false →
      (st.filterSeverity = "ALL" ∨ st.filterSeverity = v.severity) →
      passesFilter { st with filterFP := "ALL" } v = true) := by
  refine ⟨?_, ?_, ?_⟩
  · simp only [passesFilter, hai, truthyFP]
    repeat' split
    all_goals simp_all
  · simp only [passesFilter, hai, truthyFP]
    repeat' split
    all_goals simp_all
  · intro hsup hsev
    simp only [passesFilter, hai, truthyFP, hsup]
    rcases hsev with hs | hs <;>
      repeat' split <;>
      simp_all

/-- Witness for C9: a never-analyzed, unsuppressed HIGH vulnerability is
dropped by both restrictive filters and shown under ALL. -/
theorem fp_filter_not_partition_witness :
    (⟨1, "CVE-2024-0001", "HIGH", "d", false, none⟩ :
        Vulnerability).ai_is_false_positive = none ∧
    (passesFilter ⟨false, "ALL", "FP"⟩
        ⟨1, "CVE-2024-0001", "HIGH", "d", false, none⟩ = false ∧
     passesFilter ⟨false, "ALL", "REAL"⟩
        ⟨1, "CVE-2024-0001", "HIGH", "d", false, none⟩ = false ∧
     ((⟨1, "CVE-2024-0001", "HIGH", "d", false, none⟩ :
         Vulnerability).is_suppressed = false →
      (("ALL" : String) = "ALL" ∨ ("ALL" : String) = "HIGH") →
      passesFilter ⟨false, "ALL", "ALL"⟩
        ⟨1, "CVE-2024-0001", "HIGH", "d", false, none⟩ = true)) :=
  ⟨rfl, fp_filter_not_partition ⟨false, "ALL", "ALL"⟩
    ⟨1, "CVE-2024-0001", "HIGH", "d", false, none⟩ rfl⟩

end OwaspScanner
